import Mathlib

/-!
Shallow embedding of the clothing-swap backend (Python/FastAPI over DynamoDB).

The persistent store is modelled as in-memory tables (lists of records).
DynamoDB semantics used by the code are modelled faithfully:
  - `put_item` replaces any existing item with the same primary key,
    then stores the item;
  - `get_item` looks an item up by its full primary key;
  - a `query` on the Messages table (hash key `swapId`, range key
    `messageId`, as forced by every `get_item(Key={swapId, messageId})`
    call in the repository) returns the matching items sorted by the
    range key `messageId` (`ScanIndexForward=True` means ascending);
  - `update_item` edits the matching item in place and, with
    `ReturnValues="ALL_NEW"`, returns the updated item;
  - `scan` with a filter returns all matching items;
  - `delete_item` removes the item with the given key.

Non-determinism of the Python code is made explicit:
  - `uuid.uuid4()` becomes a counter (`nextUuid`) threaded through the
    state; distinct counter values give distinct identifiers;
  - `datetime.utcnow()` becomes a counter (`clock`) threaded through the
    state; the generated timestamp string is `time-<n>`.
Records and operations otherwise follow the Python sources field by field
and branch by branch.
-/

/-- `SystemMessageEvent` enum from `app/schemas/messages.py`. -/
inductive SystemMessageEvent where
  | SWAP_CREATED
  | SWAP_ACCEPTED
  | SWAP_REJECTED
  | SWAP_COMPLETED
  | SWAP_CANCELLED
  deriving DecidableEq, Repr

/-- The metadata bag attached to system messages by
`SwapRepository._create_status_change_messages` (and, without a
`new_status` entry, by `SwapRepository.delete_swap`). -/
structure SysMetadata where
  previous_status : String
  new_status : Option String
  actor_id : String
  timestamp : String
  deriving DecidableEq, Repr

/-- An item of the `Messages` table, fields as written by
`MessageRepository.create_message` / `create_system_message`.
User messages carry no `eventType` and no `metadata` attribute,
modelled as `none`. -/
structure Message where
  swapId : String
  messageId : String
  senderId : String
  recipientId : String
  content : String
  timestamp : String
  isRead : Bool
  messageType : String
  eventType : Option SystemMessageEvent
  metadata : Option SysMetadata
  deriving DecidableEq, Repr

/-- An item of the `Swaps` table, fields as written by
`SwapRepository.create_swap`.  `meetupDetails` is a free-form JSON
object, modelled as a key/value list. -/
structure Swap where
  swapId : String
  requesterId : String
  ownerId : String
  requesterListingId : String
  ownerListingId : String
  status : String
  message : String
  createdAt : String
  updatedAt : String
  completedAt : Option String
  meetupDetails : List (String × String)
  deriving DecidableEq, Repr

/-- The part of a `Users` table item the swap/message paths read. -/
structure User where
  userId : String
  deriving DecidableEq, Repr

/-- The part of a `Listings` table item the swap-creation path reads:
`listingId` (key), owning `userId` and `status`. -/
structure Listing where
  listingId : String
  userId : String
  status : String
  deriving DecidableEq, Repr

/-- The whole persistent state: the four tables plus the explicit
uuid and clock sources. -/
structure Db where
  users : List User
  listings : List Listing
  swaps : List Swap
  messages : List Message
  nextUuid : Nat
  clock : Nat
  deriving Repr

/-- Lexicographic order on character lists (DynamoDB sorts string range
keys by their bytes; for the identifiers and ISO timestamps involved the
code-point order below coincides with the byte order). -/
def charListLe : List Char → List Char → Bool
  | [], _ => true
  | _ :: _, [] => false
  | a :: as, b :: bs =>
    if a.val < b.val then true
    else if b.val < a.val then false
    else charListLe as bs

/-- Strict lexicographic order on character lists. -/
def charListLt : List Char → List Char → Bool
  | _, [] => false
  | [], _ :: _ => true
  | a :: as, b :: bs =>
    if a.val < b.val then true
    else if b.val < a.val then false
    else charListLt as bs

/-- Lexicographic `a <= b` on strings. -/
def strLe (a b : String) : Bool := charListLe a.data b.data

/-- Lexicographic `a < b` on strings. -/
def strLt (a b : String) : Bool := charListLt a.data b.data

/-- `str(uuid.uuid4())`, made deterministic by the threaded counter:
the identifier generated for counter value `n` is `u` followed by `n`
times `x`, so distinct counter values give distinct identifiers. -/
def mkUuid (n : Nat) : String := String.mk ('u' :: List.replicate n 'x')

/-- `datetime.utcnow().isoformat() + "Z"`, made deterministic by the
threaded counter. -/
def mkTime (n : Nat) : String := "time-" ++ toString n

/-- Draw a fresh uuid from the state. -/
def Db.freshUuid (db : Db) : String × Db :=
  (mkUuid db.nextUuid, { db with nextUuid := db.nextUuid + 1 })

/-- One `datetime.utcnow()` call. -/
def Db.utcnow (db : Db) : String × Db :=
  (mkTime db.clock, { db with clock := db.clock + 1 })

/-- Primary-key test for the `Messages` table (hash `swapId`,
range `messageId`). -/
def Message.hasKey (m : Message) (swap_id message_id : String) : Bool :=
  m.swapId == swap_id && m.messageId == message_id

/-- DynamoDB `put_item` on the `Messages` table: replace any item with
the same primary key, then store the new item. -/
def putMessage (t : List Message) (m : Message) : List Message :=
  (t.filter fun x => !(x.hasKey m.swapId m.messageId)) ++ [m]

/-- DynamoDB `get_item` on the `Messages` table. -/
def getMessageItem (t : List Message) (swap_id message_id : String) :
    Option Message :=
  t.find? fun m => m.hasKey swap_id message_id

/-- DynamoDB `put_item` on the `Swaps` table. -/
def putSwap (t : List Swap) (s : Swap) : List Swap :=
  (t.filter fun x => !(x.swapId == s.swapId)) ++ [s]

namespace MessageRepository

/-- The reserved system sender marker `MessageRepository.SYSTEM_SENDER_ID`. -/
def SYSTEM_SENDER_ID : String := "SYSTEM"

/-- `MessageRepository.create_message`: build a user-kind message with a
fresh uuid and the current time, `put` it, return it. -/
def create_message (db : Db) (swap_id sender_id recipient_id content : String) :
    Message × Db :=
  let (message_id, db) := db.freshUuid
  let (timestamp, db) := db.utcnow
  let message_item : Message :=
    { swapId := swap_id
      messageId := message_id
      senderId := sender_id
      recipientId := recipient_id
      content := content
      timestamp := timestamp
      isRead := false
      messageType := "user"
      eventType := none
      metadata := none }
  (message_item, { db with messages := putMessage db.messages message_item })

/-- The loop body of `MessageRepository.create_system_message`: one
message per recipient, each with its own fresh uuid, all sharing the
timestamp taken once before the loop. -/
def create_system_message_loop (swap_id : String)
    (event_type : SystemMessageEvent) (content : String)
    (metadata : Option SysMetadata) (timestamp : String) :
    List String → Db → List Message × Db
  | [], db => ([], db)
  | recipient_id :: rest, db =>
    let (message_id, db) := db.freshUuid
    let message_item : Message :=
      { swapId := swap_id
        messageId := message_id
        senderId := SYSTEM_SENDER_ID
        recipientId := recipient_id
        content := content
        timestamp := timestamp
        isRead := false
        messageType := "system"
        eventType := some event_type
        metadata := metadata }
    let db := { db with messages := putMessage db.messages message_item }
    let (ms, db) := create_system_message_loop swap_id event_type content
      metadata timestamp rest db
    (message_item :: ms, db)

/-- `MessageRepository.create_system_message`: fan one system message out
to every recipient; `isRead = False`, sender is the reserved marker. -/
def create_system_message (db : Db) (swap_id : String)
    (event_type : SystemMessageEvent) (content : String)
    (recipient_ids : List String) (metadata : Option SysMetadata) :
    List Message × Db :=
  let (timestamp, db) := db.utcnow
  create_system_message_loop swap_id event_type content metadata timestamp
    recipient_ids db

/-- `MessageRepository.get_messages_for_swap`: DynamoDB `query` on hash
key `swapId` with `ScanIndexForward=True`, i.e. the messages of the swap
sorted ascending by the range key `messageId`. -/
def get_messages_for_swap (db : Db) (swap_id : String) : List Message :=
  List.insertionSort (fun a b => strLe a.messageId b.messageId = true)
    (db.messages.filter fun m => m.swapId == swap_id)

/-- `MessageRepository.mark_message_as_read`: `None` when the message is
missing or the caller is not the recipient; an already-read message is
returned unchanged; otherwise `isRead` is set and the updated item
returned (`ReturnValues="ALL_NEW"`). -/
def mark_message_as_read (db : Db) (swap_id message_id recipient_id : String) :
    Option Message × Db :=
  match getMessageItem db.messages swap_id message_id with
  | none => (none, db)
  | some message =>
    if message.recipientId ≠ recipient_id then (none, db)
    else if message.isRead then (some message, db)
    else
      let updated := { message with isRead := true }
      (some updated,
       { db with
           messages := db.messages.map fun m =>
             if m.hasKey swap_id message_id then { m with isRead := true }
             else m })

/-- The per-swap breakdown accumulator of
`MessageRepository.count_unread_messages`: bump the count of `swap_id`,
inserting it at the end on first sight (Python dict insertion order). -/
def bumpSwapCount : List (String × Nat) → String → List (String × Nat)
  | [], swap_id => [(swap_id, 1)]
  | (k, c) :: rest, swap_id =>
    if k == swap_id then (k, c + 1) :: rest
    else (k, c) :: bumpSwapCount rest swap_id

/-- Result shape of `MessageRepository.count_unread_messages`. -/
structure UnreadCount where
  count : Nat
  swaps : List (String × Nat)
  deriving DecidableEq, Repr

/-- `MessageRepository.count_unread_messages`: scan for messages whose
recipient is the user and whose `isRead` is false; total plus per-swap
breakdown. -/
def count_unread_messages (db : Db) (user_id : String) : UnreadCount :=
  let unread_messages := db.messages.filter fun m =>
    m.recipientId == user_id && m.isRead == false
  { count := unread_messages.length
    swaps := unread_messages.foldl (fun acc m => bumpSwapCount acc m.swapId) [] }

/-- `MessageRepository.delete_message`: false when the message is
missing, the caller is not the sender, or the message is system-kind;
otherwise delete it. -/
def delete_message (db : Db) (swap_id message_id user_id : String) :
    Bool × Db :=
  match getMessageItem db.messages swap_id message_id with
  | none => (false, db)
  | some message =>
    if message.senderId ≠ user_id then (false, db)
    else if message.messageType == "system" then (false, db)
    else
      (true,
       { db with
           messages := db.messages.filter fun m =>
             !(m.hasKey swap_id message_id) })

/-- The latest-message digest inside a messages reference. -/
structure LatestMessage where
  content : String
  timestamp : String
  message_type : String
  event_type : Option SystemMessageEvent
  deriving DecidableEq, Repr

/-- Result shape of `MessageRepository.get_messages_reference`. -/
structure MessagesReference where
  total_count : Nat
  unread_count : Nat
  latest_message : Option LatestMessage
  deriving DecidableEq, Repr

/-- Python `max(messages, key=lambda m: m["timestamp"])`: the first
element attaining the maximal timestamp. -/
def maxByTimestamp (m : Message) (ms : List Message) : Message :=
  ms.foldl (fun acc x => if strLt acc.timestamp x.timestamp then x else acc) m

/-- `MessageRepository.get_messages_reference`: zero counts and no
latest message when the swap has no messages; otherwise total count,
count of messages with `isRead` false, and a digest of the
latest-timestamp message. -/
def get_messages_reference (db : Db) (swap_id : String) : MessagesReference :=
  match get_messages_for_swap db swap_id with
  | [] => { total_count := 0, unread_count := 0, latest_message := none }
  | m :: ms =>
    let messages := m :: ms
    let latest := maxByTimestamp m ms
    { total_count := messages.length
      unread_count := (messages.filter fun x => !x.isRead).length
      latest_message := some
        { content := latest.content
          timestamp := latest.timestamp
          message_type := latest.messageType
          event_type := latest.eventType } }

end MessageRepository

namespace SwapRepository

/-- The update payload of `SwapRepository.update_swap_status` after the
router has popped `userId`: the optional `status`, `message` and
`meetupDetails` entries of the request body (`"status" in data` becomes
`status.isSome`, and so on). -/
structure UpdateData where
  status : Option String
  message : Option String
  meetupDetails : Option (List (String × String))
  deriving DecidableEq, Repr

/-- `SwapRepository.get_swap`: DynamoDB `get_item` by `swapId`. -/
def get_swap (db : Db) (swap_id : String) : Option Swap :=
  db.swaps.find? fun s => s.swapId == swap_id

/-- `SwapRepository.create_swap`: fresh id, timestamps, status
`pending`, then `put`. -/
def create_swap (db : Db) (ownerId requesterListingId ownerListingId
    message : String) (meetupDetails : List (String × String))
    (requester_id : String) : Swap × Db :=
  let (swap_id, db) := db.freshUuid
  let (timestamp, db) := db.utcnow
  let swap_item : Swap :=
    { swapId := swap_id
      requesterId := requester_id
      ownerId := ownerId
      requesterListingId := requesterListingId
      ownerListingId := ownerListingId
      status := "pending"
      message := message
      createdAt := timestamp
      updatedAt := timestamp
      completedAt := none
      meetupDetails := meetupDetails }
  (swap_item, { db with swaps := putSwap db.swaps swap_item })

/-- The event-and-content selection of
`SwapRepository._create_status_change_messages`: the if/elif chain on
the new status, yielding the event type and message text, or nothing
for a status outside the four notifying states. -/
def statusEventContent (new_status : String) :
    Option (SystemMessageEvent × String) :=
  if new_status == "accepted" then
    some (.SWAP_ACCEPTED,
      "Swap request has been accepted! You can now coordinate the meetup details.")
  else if new_status == "rejected" then
    some (.SWAP_REJECTED, "Swap request has been rejected.")
  else if new_status == "completed" then
    some (.SWAP_COMPLETED,
      "Swap has been marked as completed! Thank you for using our platform.")
  else if new_status == "cancelled" then
    some (.SWAP_CANCELLED, "Swap has been cancelled.")
  else none

/-- `SwapRepository._create_status_change_messages`: both participants
are recipients; the event type and text are chosen by the new status;
for a new status outside the four notifying states no event is chosen
and nothing is written.  The metadata records previous status, new
status, acting user and the transition timestamp. -/
def create_status_change_messages (db : Db) (swap_id previous_status
    new_status requester_id owner_id actor_id timestamp : String) : Db :=
  let recipient_ids := [requester_id, owner_id]
  let metadata : SysMetadata :=
    { previous_status := previous_status
      new_status := some new_status
      actor_id := actor_id
      timestamp := timestamp }
  match statusEventContent new_status with
  | none => db
  | some (event_type, content) =>
    (MessageRepository.create_system_message db swap_id event_type content
      recipient_ids (some metadata)).2

/-- `SwapRepository.update_swap_status`: `None` when the swap is missing
or the caller is neither requester nor owner; otherwise apply the
requested field updates (always bumping `updatedAt`, stamping
`completedAt` when the new status is `completed`), and if the status
actually changed, emit the status-change system messages and enrich the
returned swap with the messages reference. -/
def update_swap_status (db : Db) (swap_id : String) (data : UpdateData)
    (user_id : String) :
    Option (Swap × Option MessageRepository.MessagesReference) × Db :=
  match get_swap db swap_id with
  | none => (none, db)
  | some existing =>
    if existing.requesterId ≠ user_id ∧ existing.ownerId ≠ user_id then
      (none, db)
    else
      let (timestamp, db) := db.utcnow
      let previous_status := existing.status
      let new_status := data.status.getD previous_status
      let status_changed := data.status.isSome ∧ previous_status ≠ new_status
      let updated : Swap :=
        { existing with
            updatedAt := timestamp
            status := data.status.getD existing.status
            completedAt :=
              if data.status == some "completed" then some timestamp
              else existing.completedAt
            message := data.message.getD existing.message
            meetupDetails := data.meetupDetails.getD existing.meetupDetails }
      let db := { db with
        swaps := db.swaps.map fun s =>
          if s.swapId == swap_id then updated else s }
      if status_changed then
        let db := create_status_change_messages db swap_id previous_status
          new_status updated.requesterId updated.ownerId user_id timestamp
        let message_refs := MessageRepository.get_messages_reference db swap_id
        (some (updated, some message_refs), db)
      else
        (some (updated, none), db)

end SwapRepository

/-- FastAPI `HTTPException`: status code plus detail string.  Raising it
is modelled by returning it through `Except`. -/
structure HTTPException where
  status_code : Nat
  detail : String
  deriving DecidableEq, Repr

namespace UserRepository

/-- `UserRepository.get_user`: DynamoDB `get_item` by `userId`. -/
def get_user (db : Db) (user_id : String) : Option User :=
  db.users.find? fun u => u.userId == user_id

end UserRepository

namespace ListingRepository

/-- `ListingRepository.get_listing`: DynamoDB `get_item` by `listingId`. -/
def get_listing (db : Db) (listing_id : String) : Option Listing :=
  db.listings.find? fun l => l.listingId == listing_id

end ListingRepository

namespace SwapRepository

/-- The dict comprehension of `SwapRepository.get_swaps_by_user`
(`unique_swaps = {swap["swapId"]: swap for swap in swaps}`): keys stay
in first-insertion order, the value for a repeated key is the last one
assigned. -/
def upsertBySwapId : List Swap → Swap → List Swap
  | [], s => [s]
  | x :: rest, s =>
    if x.swapId == s.swapId then s :: rest
    else x :: upsertBySwapId rest s

/-- `SwapRepository.get_swaps_by_user` with `role=None` (the code path
the history endpoint uses): the union of the requester-side and
owner-side index queries, de-duplicated by `swapId` and stably sorted by
`createdAt` descending. -/
def get_swaps_by_user (db : Db) (user_id : String) : List Swap :=
  let swaps := (db.swaps.filter fun s => s.requesterId == user_id)
    ++ (db.swaps.filter fun s => s.ownerId == user_id)
  let unique_swaps := swaps.foldl upsertBySwapId []
  List.insertionSort (fun a b => strLe b.createdAt a.createdAt = true)
    unique_swaps

end SwapRepository

/-- Python `round` (round half to even) of a rational to an integer:
round half to even. -/
def roundHalfEven (q : ℚ) : ℤ :=
  let f := ⌊q⌋
  let r := q - (f : ℚ)
  if r < 1 / 2 then f
  else if 1 / 2 < r then f + 1
  else if f % 2 = 0 then f else f + 1

/-- Python `round(x, 1)` over the rationals. -/
def pythonRound1 (q : ℚ) : ℚ := ((roundHalfEven (10 * q) : ℤ) : ℚ) / 10

namespace SwapsRouter

/-- The `swap_history` buckets of `get_user_swap_history`: swaps of the
five recognized statuses, each in its bucket (other statuses are
dropped). -/
structure CategorizedSwaps where
  pending : List Swap
  accepted : List Swap
  rejected : List Swap
  completed : List Swap
  cancelled : List Swap
  deriving DecidableEq, Repr

/-- The `statistics` object of `get_user_swap_history`. -/
structure SwapStatistics where
  total_swaps : Nat
  completed_swaps : Nat
  pending_swaps : Nat
  success_rate : ℚ
  deriving DecidableEq, Repr

/-- The response body of `get_user_swap_history`. -/
structure HistoryResponse where
  user_id : String
  swap_history : CategorizedSwaps
  statistics : SwapStatistics
  deriving DecidableEq, Repr

/-- `GET /swaps/user/.../history` (`get_user_swap_history`): 404 when
the user is missing; otherwise bucket the swaps of the user by status and
derive the statistics; `success_rate` is `completed / total * 100`
when `total > 0` (else `0`), rounded to one decimal. -/
def get_user_swap_history (db : Db) (user_id : String) :
    Except HTTPException HistoryResponse :=
  match UserRepository.get_user db user_id with
  | none => .error { status_code := 404, detail := "User not found" }
  | some _ =>
    let all_swaps := SwapRepository.get_swaps_by_user db user_id
    let categorized_swaps : CategorizedSwaps :=
      { pending := all_swaps.filter fun s => s.status == "pending"
        accepted := all_swaps.filter fun s => s.status == "accepted"
        rejected := all_swaps.filter fun s => s.status == "rejected"
        completed := all_swaps.filter fun s => s.status == "completed"
        cancelled := all_swaps.filter fun s => s.status == "cancelled" }
    let total_swaps := all_swaps.length
    let completed_swaps := categorized_swaps.completed.length
    let success_rate : ℚ :=
      if total_swaps > 0 then
        (completed_swaps : ℚ) / (total_swaps : ℚ) * 100
      else 0
    .ok
      { user_id := user_id
        swap_history := categorized_swaps
        statistics :=
          { total_swaps := total_swaps
            completed_swaps := completed_swaps
            pending_swaps := categorized_swaps.pending.length
            success_rate := pythonRound1 success_rate } }

/-- The request body of `POST /swaps/` (`create_swap`): every entry of
the JSON dict the handler reads, each optional because the dict is
free-form. -/
structure CreateSwapPayload where
  requesterId : Option String
  ownerId : Option String
  requesterListingId : Option String
  ownerListingId : Option String
  message : Option String
  meetupDetails : Option (List (String × String))
  deriving DecidableEq, Repr

/-- `POST /swaps/` (`create_swap`): validate required fields, reject a
self-swap, verify both users, both listings (existing and active) and
both ownerships, then create the swap record.  Every failure leaves the
state untouched. -/
def create_swap (db : Db) (swap_data : CreateSwapPayload) :
    Except HTTPException Swap × Db :=
  match swap_data.requesterId with
  | none =>
    (.error { status_code := 400,
              detail := "Missing required field: requesterId" }, db)
  | some requesterId =>
  match swap_data.ownerId with
  | none =>
    (.error { status_code := 400,
              detail := "Missing required field: ownerId" }, db)
  | some ownerId =>
  match swap_data.requesterListingId with
  | none =>
    (.error { status_code := 400,
              detail := "Missing required field: requesterListingId" }, db)
  | some requesterListingId =>
  match swap_data.ownerListingId with
  | none =>
    (.error { status_code := 400,
              detail := "Missing required field: ownerListingId" }, db)
  | some ownerListingId =>
  if requesterId = ownerId then
    (.error { status_code := 400,
              detail := "Cannot create swap with yourself" }, db)
  else
    match UserRepository.get_user db requesterId with
    | none =>
      (.error { status_code := 404, detail := "Requester user not found" }, db)
    | some _ =>
    match UserRepository.get_user db ownerId with
    | none =>
      (.error { status_code := 404, detail := "Owner user not found" }, db)
    | some _ =>
    match ListingRepository.get_listing db requesterListingId with
    | none =>
      (.error { status_code := 404,
                detail := "Requester listing not found or not active" }, db)
    | some requester_listing =>
    if requester_listing.status ≠ "active" then
      (.error { status_code := 404,
                detail := "Requester listing not found or not active" }, db)
    else
    match ListingRepository.get_listing db ownerListingId with
    | none =>
      (.error { status_code := 404,
                detail := "Owner listing not found or not active" }, db)
    | some owner_listing =>
    if owner_listing.status ≠ "active" then
      (.error { status_code := 404,
                detail := "Owner listing not found or not active" }, db)
    else if requester_listing.userId ≠ requesterId then
      (.error { status_code := 403,
                detail := "Requester doesn\x27t own the offered listing" }, db)
    else if owner_listing.userId ≠ ownerId then
      (.error { status_code := 403,
                detail := "Owner doesn\x27t own the requested listing" }, db)
    else
      let (new_swap, db) := SwapRepository.create_swap db ownerId
        requesterListingId ownerListingId (swap_data.message.getD "")
        (swap_data.meetupDetails.getD []) requesterId
      (.ok new_swap, db)

/-- The request body of `PUT /swaps/...` (`update_swap`): the `userId`
entry plus the update fields. -/
structure UpdateSwapPayload where
  userId : Option String
  status : Option String
  message : Option String
  meetupDetails : Option (List (String × String))
  deriving DecidableEq, Repr

/-- The status whitelist of `update_swap`. -/
def valid_statuses : List String :=
  ["pending", "accepted", "rejected", "completed", "cancelled"]

/-- `PUT /swaps/...` (`update_swap`): require `userId`, validate the
status value, 404 when the swap is missing, then delegate to
`SwapRepository.update_swap_status`, turning its `None` (missing swap or
caller not a participant) into a 404. -/
def update_swap (db : Db) (swap_id : String) (update_data : UpdateSwapPayload) :
    Except HTTPException (Swap × Option MessageRepository.MessagesReference)
      × Db :=
  match update_data.userId with
  | none =>
    (.error { status_code := 400,
              detail := "userId is required for authorization" }, db)
  | some user_id =>
    match update_data.status with
    | some s =>
      if s ∉ valid_statuses then
        (.error { status_code := 400,
                  detail := "Invalid status. Must be one of: pending, accepted, rejected, completed, cancelled" },
         db)
      else
        match SwapRepository.get_swap db swap_id with
        | none =>
          (.error { status_code := 404, detail := "Swap not found" }, db)
        | some _ =>
          match SwapRepository.update_swap_status db swap_id
            { status := update_data.status, message := update_data.message
              meetupDetails := update_data.meetupDetails } user_id with
          | (none, db) =>
            (.error { status_code := 404,
                      detail := "Swap not found or not authorized to update" },
             db)
          | (some result, db) => (.ok result, db)
    | none =>
      match SwapRepository.get_swap db swap_id with
      | none =>
        (.error { status_code := 404, detail := "Swap not found" }, db)
      | some _ =>
        match SwapRepository.update_swap_status db swap_id
          { status := none, message := update_data.message
            meetupDetails := update_data.meetupDetails } user_id with
        | (none, db) =>
          (.error { status_code := 404,
                    detail := "Swap not found or not authorized to update" },
           db)
        | (some result, db) => (.ok result, db)

end SwapsRouter

/-- `app/api/dependencies/messages.verify_user_in_swap`: 404 when the
swap does not exist, 403 when the caller is neither the requester nor
the owner, else the swap. -/
def verify_user_in_swap (db : Db) (swap_id user_id : String) :
    Except HTTPException Swap :=
  match SwapRepository.get_swap db swap_id with
  | none => .error { status_code := 404, detail := "Swap not found" }
  | some swap =>
    if swap.requesterId ≠ user_id ∧ swap.ownerId ≠ user_id then
      .error { status_code := 403,
               detail := "User is not a participant in this swap" }
    else .ok swap

namespace MessagesRouter

/-- `GET /messages/swap/...` (`get_messages_for_swap` endpoint): verify
the caller is a participant, then return the messages of the swap. -/
def get_messages_for_swap (db : Db) (swap_id user_id : String) :
    Except HTTPException (List Message) :=
  match verify_user_in_swap db swap_id user_id with
  | .error e => .error e
  | .ok _ => .ok (MessageRepository.get_messages_for_swap db swap_id)

end MessagesRouter

namespace GeocodingService

/-- `math.radians`: degrees to radians.  Floating-point arithmetic is
idealized over the reals. -/
noncomputable def radians (x : ℝ) : ℝ := x * (Real.pi / 180)

/-- `GeocodingService.calculate_distance`: the Haversine formula with
Earth radius 3956 miles, `a = sin(dlat/2)^2 + cos(lat1) cos(lat2)
sin(dlng/2)^2`, `c = 2 asin(sqrt a)`, result `c * 3956`. -/
noncomputable def calculate_distance (lat1 lng1 lat2 lng2 : ℝ) : ℝ :=
  2 * Real.arcsin (Real.sqrt
    (Real.sin ((radians lat2 - radians lat1) / 2) ^ 2 +
      Real.cos (radians lat1) * Real.cos (radians lat2) *
        Real.sin ((radians lng2 - radians lng1) / 2) ^ 2)) * 3956

/-- The part of a listing dict `filter_listings_by_distance` touches:
its optional `location` (`lat`/`lng`) and the `distance_miles` entry the
filter adds. -/
structure GeoListing where
  location : Option (ℝ × ℝ)
  distance_miles : Option ℝ

/-- Python `round(x, 1)` over the reals (round half to even). -/
noncomputable def round1 (x : ℝ) : ℝ :=
  (if 10 * x - (⌊10 * x⌋ : ℝ) < 1 / 2 then (⌊10 * x⌋ : ℝ)
   else if 1 / 2 < 10 * x - (⌊10 * x⌋ : ℝ) then (⌊10 * x⌋ : ℝ) + 1
   else if ⌊10 * x⌋ % 2 = 0 then (⌊10 * x⌋ : ℝ) else (⌊10 * x⌋ : ℝ) + 1) / 10

/-- The sort key of `filter_listings_by_distance`:
`x.get("distance_miles", float("inf"))`. -/
noncomputable def sortKey (l : GeoListing) : WithTop ℝ :=
  match l.distance_miles with
  | some d => (d : WithTop ℝ)
  | none => ⊤

open Classical in
/-- `GeocodingService.filter_listings_by_distance`: skip listings
without coordinates, keep those whose Haversine distance from the
center is at most the radius (inclusive), record the rounded distance,
sort ascending by it. -/
noncomputable def filter_listings_by_distance (listings : List GeoListing)
    (center_lat center_lng radius_miles : ℝ) : List GeoListing :=
  let filtered := listings.filterMap fun listing =>
    match listing.location with
    | none => none
    | some (lat, lng) =>
      let distance := calculate_distance center_lat center_lng lat lng
      if distance ≤ radius_miles then
        some { listing with distance_miles := some (round1 distance) }
      else none
  List.insertionSort (fun a b => sortKey a ≤ sortKey b) filtered

end GeocodingService

/-- From the spec (claim C1 source): the system-message event type the
specification assigns to each target status of a notifying transition;
`none` for any other target state. -/
def specEventFor (s : String) : Option SystemMessageEvent :=
  if s = "accepted" then some .SWAP_ACCEPTED
  else if s = "rejected" then some .SWAP_REJECTED
  else if s = "completed" then some .SWAP_COMPLETED
  else if s = "cancelled" then some .SWAP_CANCELLED
  else none

/-- A Boolean check that a message list is ordered by timestamp
ascending (oldest first), the ordering the spec promises for
`listForSwap`. -/
def timestampsAscending : List Message → Bool
  | [] => true
  | [_] => true
  | a :: b :: rest =>
    strLe a.timestamp b.timestamp && timestampsAscending (b :: rest)

/-- Fixture: user `u1`. -/
def userU1 : User := { userId := "u1" }

/-- Fixture: user `u2`. -/
def userU2 : User := { userId := "u2" }

/-- Fixture: active listing `l1` owned by `u1`. -/
def listingL1 : Listing := { listingId := "l1", userId := "u1", status := "active" }

/-- Fixture: active listing `l2` owned by `u2`. -/
def listingL2 : Listing := { listingId := "l2", userId := "u2", status := "active" }

/-- Fixture: a pending swap `s1` between `u1` (requester, offering `l1`)
and `u2` (owner of `l2`). -/
def pendingSwap : Swap :=
  { swapId := "s1", requesterId := "u1", ownerId := "u2"
    requesterListingId := "l1", ownerListingId := "l2"
    status := "pending", message := ""
    createdAt := "time-0", updatedAt := "time-0"
    completedAt := none, meetupDetails := [] }

/-- Fixture: the store holding the two users, their listings and the
pending swap. -/
def baseDb : Db :=
  { users := [userU1, userU2], listings := [listingL1, listingL2]
    swaps := [pendingSwap], messages := [], nextUuid := 0, clock := 1 }

/-- Fixture: an unread system message of swap `s1` addressed to `u1`. -/
def sysMessage : Message :=
  { swapId := "s1", messageId := "m1"
    senderId := MessageRepository.SYSTEM_SENDER_ID, recipientId := "u1"
    content := "Swap request has been accepted! You can now coordinate the meetup details."
    timestamp := "time-1", isRead := false, messageType := "system"
    eventType := some .SWAP_ACCEPTED
    metadata := some { previous_status := "pending", new_status := some "accepted"
                       actor_id := "u2", timestamp := "time-1" } }

/-- Fixture: an unread user message of swap `s1` from `u1` to `u2`. -/
def userMessage : Message :=
  { swapId := "s1", messageId := "m2", senderId := "u1", recipientId := "u2"
    content := "Hello", timestamp := "time-2", isRead := false
    messageType := "user", eventType := none, metadata := none }

/-- Fixture: the base store with the system and the user message. -/
def msgDb : Db := { baseDb with messages := [sysMessage, userMessage] }

/-- Fixture: the chronologically first message of swap `s1`, stored under
the lexicographically larger message id `b`. -/
def earlyMessage : Message :=
  { swapId := "s1", messageId := "b", senderId := "u1", recipientId := "u2"
    content := "first", timestamp := "2025-01-01T00:00:00Z", isRead := false
    messageType := "user", eventType := none, metadata := none }

/-- Fixture: the chronologically second message of swap `s1`, stored
under the lexicographically smaller message id `a`. -/
def lateMessage : Message :=
  { swapId := "s1", messageId := "a", senderId := "u2", recipientId := "u1"
    content := "second", timestamp := "2025-01-02T00:00:00Z", isRead := false
    messageType := "user", eventType := none, metadata := none }

/-- Fixture: the base store holding the two user messages of swap `s1`,
inserted in chronological order. -/
def orderDb : Db := { baseDb with messages := [earlyMessage, lateMessage] }

/-- Fixture: a completed swap of requester `u1`, for the history
statistics. -/
def completedSwap : Swap :=
  { swapId := "s2", requesterId := "u1", ownerId := "u2"
    requesterListingId := "l1", ownerListingId := "l2"
    status := "completed", message := ""
    createdAt := "time-1", updatedAt := "time-3"
    completedAt := some "time-3", meetupDetails := [] }

/-- Fixture: the base store with one pending and one completed swap for
user `u1`. -/
def historyDb : Db := { baseDb with swaps := [pendingSwap, completedSwap] }

/-! Theorems. -/

theorem mkUuid_injective : Function.Injective mkUuid := by
  intro m n h
  have h2 : 'u' :: List.replicate m 'x' = 'u' :: List.replicate n 'x' := by
    have := congrArg String.data h
    simpa [mkUuid] using this
  have := congrArg List.length h2
  simpa using this

theorem putMessage_of_fresh (t : List Message) (m : Message)
    (h : ∀ x ∈ t, ¬(x.swapId = m.swapId ∧ x.messageId = m.messageId)) :
    putMessage t m = t ++ [m] := by
  unfold putMessage
  congr 1
  apply List.filter_eq_self.mpr
  intro x hx
  have hne := h x hx
  by_cases h1 : x.swapId = m.swapId
  · by_cases h2 : x.messageId = m.messageId
    · exact absurd ⟨h1, h2⟩ hne
    · simp [Message.hasKey, h1, h2]
  · simp [Message.hasKey, h1]

/-- Claim C7: for every stored message of system kind, `delete_message`
fails for every caller identity (including the reserved system sender
marker) and leaves the store unchanged: a system message is never
deleted by this operation. -/
theorem delete_message_never_deletes_system_messages
    (db : Db) (swap_id message_id user_id : String) (m : Message)
    (hfind : getMessageItem db.messages swap_id message_id = some m)
    (hsys : m.messageType = "system") :
    MessageRepository.delete_message db swap_id message_id user_id =
      (false, db) := by
  unfold MessageRepository.delete_message
  rw [hfind]
  by_cases h : m.senderId = user_id
  · simp [h, hsys]
  · simp [h]

/-- Witness for claim C7: the system message `m1` of swap `s1` in the
concrete store cannot be deleted, even by the caller `SYSTEM`. -/
theorem delete_message_never_deletes_system_messages_witness :
    MessageRepository.delete_message msgDb "s1" "m1" "SYSTEM" =
      (false, msgDb) :=
  delete_message_never_deletes_system_messages msgDb "s1" "m1" "SYSTEM"
    sysMessage (by decide) rfl

/-- Claim C3, evaluated at a failing input: two messages of swap `s1`
stored in chronological order but with message ids in the opposite
lexicographic order come back from `get_messages_for_swap` newest
first — the DynamoDB range-key (message id) order, not the timestamp
order promised by the documentation. -/
theorem get_messages_for_swap_not_timestamp_ordered :
    MessageRepository.get_messages_for_swap orderDb "s1" =
      [lateMessage, earlyMessage] ∧
    timestampsAscending
      (MessageRepository.get_messages_for_swap orderDb "s1") = false := by
  exact ⟨by decide, by decide⟩

/-- Claim C6: a swap-creation request in which the requester identifier
equals the owner identifier fails with a 400 client error (a validation
failure) and persists nothing: the store is returned unchanged. -/
theorem create_swap_rejects_self_swap (db : Db)
    (p : SwapsRouter.CreateSwapPayload) (u : String)
    (hreq : p.requesterId = some u) (hown : p.ownerId = some u) :
    (∃ e : HTTPException, (SwapsRouter.create_swap db p).1 = .error e ∧
        e.status_code = 400) ∧
    (SwapsRouter.create_swap db p).2 = db := by
  cases hrl : p.requesterListingId with
  | none =>
    refine ⟨⟨{ status_code := 400,
               detail := "Missing required field: requesterListingId" },
      ?_, rfl⟩, ?_⟩ <;>
      simp [SwapsRouter.create_swap, hreq, hown, hrl]
  | some rl =>
    cases hol : p.ownerListingId with
    | none =>
      refine ⟨⟨{ status_code := 400,
                 detail := "Missing required field: ownerListingId" },
        ?_, rfl⟩, ?_⟩ <;>
        simp [SwapsRouter.create_swap, hreq, hown, hrl, hol]
    | some ol =>
      refine ⟨⟨{ status_code := 400,
                 detail := "Cannot create swap with yourself" },
        ?_, rfl⟩, ?_⟩ <;>
        simp [SwapsRouter.create_swap, hreq, hown, hrl, hol]

/-- Witness for claim C6: creating a swap from `u1` to `u1` on the
concrete store fails with status 400 and leaves the store unchanged. -/
theorem create_swap_rejects_self_swap_witness :
    (∃ e : HTTPException,
        (SwapsRouter.create_swap baseDb
          { requesterId := some "u1", ownerId := some "u1"
            requesterListingId := some "l1", ownerListingId := some "l2"
            message := none, meetupDetails := none }).1 = .error e ∧
        e.status_code = 400) ∧
    (SwapsRouter.create_swap baseDb
      { requesterId := some "u1", ownerId := some "u1"
        requesterListingId := some "l1", ownerListingId := some "l2"
        message := none, meetupDetails := none }).2 = baseDb :=
  create_swap_rejects_self_swap baseDb
    { requesterId := some "u1", ownerId := some "u1"
      requesterListingId := some "l1", ownerListingId := some "l2"
      message := none, meetupDetails := none } "u1" rfl rfl

/-- Counterexample to claim C2 as stated: a message-list request by
`u3`, who is neither participant of swap `s1`, fails with status 403,
while the same request for a missing swap fails with status 404 — the
two failure classes differ, so not every non-participant operation
fails identically to swap-not-found. -/
theorem message_list_auth_differs_from_not_found :
    MessagesRouter.get_messages_for_swap baseDb "s1" "u3" =
      .error { status_code := 403
               detail := "User is not a participant in this swap" } ∧
    MessagesRouter.get_messages_for_swap baseDb "sX" "u3" =
      .error { status_code := 404, detail := "Swap not found" } ∧
    (403 : Nat) ≠ 404 := by
  exact ⟨rfl, rfl, by decide⟩

/-- Claim C8: `mark_message_as_read` is idempotent.  For an existing
message whose recipient is the caller, the first call returns the
message with the read flag set, the store afterwards holds that
read=true message, and a second call returns the same read=true message
without error and without changing the store. -/
theorem mark_message_as_read_idempotent
    (db : Db) (swap_id message_id recipient_id : String) (m : Message)
    (hfind : getMessageItem db.messages swap_id message_id = some m)
    (hrec : m.recipientId = recipient_id) :
    (MessageRepository.mark_message_as_read db swap_id message_id
        recipient_id).1 = some { m with isRead := true } ∧
    getMessageItem (MessageRepository.mark_message_as_read db swap_id
        message_id recipient_id).2.messages swap_id message_id =
      some { m with isRead := true } ∧
    MessageRepository.mark_message_as_read
        (MessageRepository.mark_message_as_read db swap_id message_id
          recipient_id).2 swap_id message_id recipient_id =
      (some { m with isRead := true },
       (MessageRepository.mark_message_as_read db swap_id message_id
          recipient_id).2) := by
  have hfind' : List.find? (fun mm => Message.hasKey mm swap_id message_id)
      db.messages = some m := hfind
  have hkey := List.find?_some hfind'
  have hnotne : ¬(m.recipientId ≠ recipient_id) := fun hh => hh hrec
  by_cases hr : m.isRead
  · have hm : ({ m with isRead := true } : Message) = m := by
      cases m; simp_all
    have h1 : MessageRepository.mark_message_as_read db swap_id message_id
        recipient_id = (some m, db) := by
      simp only [MessageRepository.mark_message_as_read, hfind]
      rw [if_neg hnotne, if_pos hr]
    rw [hm]
    refine ⟨by rw [h1], ?_, ?_⟩
    · rw [h1]; exact hfind
    · rw [h1]; exact h1
  · have h1 : MessageRepository.mark_message_as_read db swap_id message_id
        recipient_id =
        (some { m with isRead := true },
         { db with messages := db.messages.map fun x =>
             if x.hasKey swap_id message_id then { x with isRead := true }
             else x }) := by
      simp only [MessageRepository.mark_message_as_read, hfind]
      rw [if_neg hnotne, if_neg hr]
    have hfind2 : getMessageItem (db.messages.map fun x =>
        if x.hasKey swap_id message_id then { x with isRead := true }
        else x) swap_id message_id = some { m with isRead := true } := by
      show ((db.messages.map fun x =>
        if x.hasKey swap_id message_id then { x with isRead := true }
        else x).find? fun mm => mm.hasKey swap_id message_id) = _
      rw [List.find?_map]
      have hpf : ((fun mm : Message => mm.hasKey swap_id message_id) ∘
          fun x : Message =>
            if x.hasKey swap_id message_id then { x with isRead := true }
            else x) = fun mm : Message => mm.hasKey swap_id message_id := by
        funext x
        simp only [Function.comp]
        by_cases h1 : x.swapId = swap_id
        · by_cases h2 : x.messageId = message_id
          · simp [Message.hasKey, h1, h2]
          · simp [Message.hasKey, h1, h2]
        · simp [Message.hasKey, h1]
      rw [hpf, hfind']
      simp [hkey]
    have h2 : MessageRepository.mark_message_as_read
        { db with messages := db.messages.map fun x =>
            if x.hasKey swap_id message_id then { x with isRead := true }
            else x } swap_id message_id recipient_id =
        (some { m with isRead := true },
         { db with messages := db.messages.map fun x =>
             if x.hasKey swap_id message_id then { x with isRead := true }
             else x }) := by
      simp only [MessageRepository.mark_message_as_read, hfind2]
      simp [hrec]
    refine ⟨by rw [h1], by rw [h1]; exact hfind2, by rw [h1]; exact h2⟩

/-- Witness for claim C8: marking the unread user message `m2` of swap
`s1` as read by its recipient `u2`, twice, on the concrete store. -/
theorem mark_message_as_read_idempotent_witness :
    (MessageRepository.mark_message_as_read msgDb "s1" "m2" "u2").1 =
      some { userMessage with isRead := true } ∧
    getMessageItem (MessageRepository.mark_message_as_read msgDb "s1" "m2"
        "u2").2.messages "s1" "m2" =
      some { userMessage with isRead := true } ∧
    MessageRepository.mark_message_as_read
        (MessageRepository.mark_message_as_read msgDb "s1" "m2" "u2").2
        "s1" "m2" "u2" =
      (some { userMessage with isRead := true },
       (MessageRepository.mark_message_as_read msgDb "s1" "m2" "u2").2) :=
  mark_message_as_read_idempotent msgDb "s1" "m2" "u2" userMessage
    (by decide) rfl

/-- Claim C2 (amended): a swap status mutation by an actor who is
neither participant fails exactly like a mutation of a missing swap
(an HTTPException with status 404 in both cases), but a message-list
request distinguishes the two: 403 for a non-participant versus 404
for a missing swap. -/
theorem swap_auth_failure_classes (db : Db) (swap_id user_id : String)
    (payload : SwapsRouter.UpdateSwapPayload) (sw : Swap)
    (missing_id : String)
    (hpayload : payload.userId = some user_id)
    (hget : SwapRepository.get_swap db swap_id = some sw)
    (hnot : sw.requesterId ≠ user_id ∧ sw.ownerId ≠ user_id)
    (hmissing : SwapRepository.get_swap db missing_id = none)
    (hvalid : payload.status = none ∨
      ∃ s, payload.status = some s ∧ s ∈ SwapsRouter.valid_statuses) :
    (∃ e1 : HTTPException,
        (SwapsRouter.update_swap db swap_id payload).1 = .error e1 ∧
        e1.status_code = 404) ∧
    (∃ e2 : HTTPException,
        (SwapsRouter.update_swap db missing_id payload).1 = .error e2 ∧
        e2.status_code = 404) ∧
    MessagesRouter.get_messages_for_swap db swap_id user_id =
      .error { status_code := 403
               detail := "User is not a participant in this swap" } ∧
    MessagesRouter.get_messages_for_swap db missing_id user_id =
      .error { status_code := 404, detail := "Swap not found" } := by
  obtain ⟨pu, ps, pm, pd⟩ := payload
  have hpu : pu = some user_id := hpayload
  subst hpu
  have hupd : SwapRepository.update_swap_status db swap_id
      { status := ps, message := pm, meetupDetails := pd } user_id =
      (none, db) := by
    simp only [SwapRepository.update_swap_status, hget]
    rw [if_pos hnot]
  refine ⟨?_, ?_, ?_, ?_⟩
  · rcases hvalid with hs | ⟨s, hs, hsmem⟩ <;> simp only at hs <;> subst hs
    · refine ⟨{ status_code := 404
                detail := "Swap not found or not authorized to update" },
        ?_, rfl⟩
      simp only [SwapsRouter.update_swap, hget, hupd]
    · refine ⟨{ status_code := 404
                detail := "Swap not found or not authorized to update" },
        ?_, rfl⟩
      simp only [SwapsRouter.update_swap, hget]
      rw [if_neg (by simpa using hsmem)]
      simp only [hupd]
  · rcases hvalid with hs | ⟨s, hs, hsmem⟩ <;> simp only at hs <;> subst hs
    · refine ⟨{ status_code := 404, detail := "Swap not found" }, ?_, rfl⟩
      simp only [SwapsRouter.update_swap, hmissing]
    · refine ⟨{ status_code := 404, detail := "Swap not found" }, ?_, rfl⟩
      simp only [SwapsRouter.update_swap, hmissing]
      rw [if_neg (by simpa using hsmem)]
  · simp only [MessagesRouter.get_messages_for_swap, verify_user_in_swap,
      hget]
    rw [if_pos hnot]
  · simp only [MessagesRouter.get_messages_for_swap, verify_user_in_swap,
      hmissing]

/-- Witness for claim C2 (amended) on the concrete store: actor `u3`
against swap `s1` and against the missing swap id `sX`. -/
theorem swap_auth_failure_classes_witness :
    (∃ e1 : HTTPException,
        (SwapsRouter.update_swap baseDb "s1"
          { userId := some "u3", status := some "accepted"
            message := none, meetupDetails := none }).1 = .error e1 ∧
        e1.status_code = 404) ∧
    (∃ e2 : HTTPException,
        (SwapsRouter.update_swap baseDb "sX"
          { userId := some "u3", status := some "accepted"
            message := none, meetupDetails := none }).1 = .error e2 ∧
        e2.status_code = 404) ∧
    MessagesRouter.get_messages_for_swap baseDb "s1" "u3" =
      .error { status_code := 403
               detail := "User is not a participant in this swap" } ∧
    MessagesRouter.get_messages_for_swap baseDb "sX" "u3" =
      .error { status_code := 404, detail := "Swap not found" } :=
  swap_auth_failure_classes baseDb "s1" "u3"
    { userId := some "u3", status := some "accepted"
      message := none, meetupDetails := none } pendingSwap "sX" rfl rfl
    (by decide) rfl (Or.inr ⟨"accepted", rfl, by decide⟩)

theorem participant_cond_false {sw : Swap} {user_id : String}
    (hpart : sw.requesterId = user_id ∨ sw.ownerId = user_id) :
    ¬(sw.requesterId ≠ user_id ∧ sw.ownerId ≠ user_id) := by
  rcases hpart with h | h
  · exact fun hc => hc.1 h
  · exact fun hc => hc.2 h

theorem update_swap_status_no_status_change (db : Db)
    (swap_id user_id : String) (data : SwapRepository.UpdateData) (sw : Swap)
    (hget : SwapRepository.get_swap db swap_id = some sw)
    (hpart : sw.requesterId = user_id ∨ sw.ownerId = user_id)
    (hsame : data.status = none ∨ data.status = some sw.status) :
    ((SwapRepository.update_swap_status db swap_id data user_id).2).messages
      = db.messages := by
  simp only [SwapRepository.update_swap_status, hget, Db.utcnow]
  rw [if_neg (participant_cond_false hpart)]
  have hnc : ¬((data.status.isSome : Prop) ∧
      sw.status ≠ data.status.getD sw.status) := by
    rcases hsame with h | h <;> rw [h] <;> simp
  rw [if_neg hnc]

theorem update_swap_status_notifying_spec
    (db : Db) (swap_id user_id new_status : String)
    (msg0 : Option String) (md0 : Option (List (String × String)))
    (sw : Swap) (ev : SystemMessageEvent) (content : String)
    (hget : SwapRepository.get_swap db swap_id = some sw)
    (hpart : sw.requesterId = user_id ∨ sw.ownerId = user_id)
    (hchange : sw.status ≠ new_status)
    (hev : SwapRepository.statusEventContent new_status =
      some (ev, content))
    (hfresh : ∀ m ∈ db.messages,
      ¬(m.swapId = swap_id ∧ m.messageId = mkUuid db.nextUuid) ∧
      ¬(m.swapId = swap_id ∧ m.messageId = mkUuid (db.nextUuid + 1))) :
    SwapRepository.update_swap_status db swap_id
      { status := some new_status, message := msg0, meetupDetails := md0 }
      user_id =
    (let updated : Swap :=
      { sw with
          updatedAt := mkTime db.clock
          status := new_status
          completedAt :=
            if (some new_status == some "completed" : Bool) then
              some (mkTime db.clock)
            else sw.completedAt
          message := msg0.getD sw.message
          meetupDetails := md0.getD sw.meetupDetails }
     let m1 : Message :=
      { swapId := swap_id, messageId := mkUuid db.nextUuid
        senderId := MessageRepository.SYSTEM_SENDER_ID
        recipientId := sw.requesterId, content := content
        timestamp := mkTime (db.clock + 1), isRead := false
        messageType := "system", eventType := some ev
        metadata := some
          { previous_status := sw.status, new_status := some new_status
            actor_id := user_id, timestamp := mkTime db.clock } }
     let m2 : Message :=
      { m1 with messageId := mkUuid (db.nextUuid + 1)
                recipientId := sw.ownerId }
     let db2 : Db :=
      { db with
          swaps := db.swaps.map fun s =>
            if s.swapId == swap_id then updated else s
          messages := db.messages ++ [m1, m2]
          nextUuid := db.nextUuid + 2
          clock := db.clock + 2 }
     (some (updated,
            some (MessageRepository.get_messages_reference db2 swap_id)),
      db2)) := by
  have hsc : ((some new_status).isSome : Prop) ∧ sw.status ≠ new_status :=
    ⟨rfl, hchange⟩
  simp only [SwapRepository.update_swap_status, hget, Db.utcnow,
    Option.getD_some]
  rw [if_neg (participant_cond_false hpart), if_pos hsc]
  simp only [SwapRepository.create_status_change_messages, hev,
    MessageRepository.create_system_message,
    MessageRepository.create_system_message_loop, Db.utcnow, Db.freshUuid]
  have hput1 : putMessage db.messages
      { swapId := swap_id, messageId := mkUuid db.nextUuid
        senderId := MessageRepository.SYSTEM_SENDER_ID
        recipientId := sw.requesterId, content := content
        timestamp := mkTime (db.clock + 1), isRead := false
        messageType := "system", eventType := some ev
        metadata := some
          { previous_status := sw.status, new_status := some new_status
            actor_id := user_id, timestamp := mkTime db.clock } } =
      db.messages ++
        [{ swapId := swap_id, messageId := mkUuid db.nextUuid
           senderId := MessageRepository.SYSTEM_SENDER_ID
           recipientId := sw.requesterId, content := content
           timestamp := mkTime (db.clock + 1), isRead := false
           messageType := "system", eventType := some ev
           metadata := some
             { previous_status := sw.status, new_status := some new_status
               actor_id := user_id, timestamp := mkTime db.clock } }] :=
    putMessage_of_fresh _ _ (fun x hx => (hfresh x hx).1)
  rw [hput1]
  have hput2 : ∀ mm2 : Message, mm2.swapId = swap_id →
      mm2.messageId = mkUuid (db.nextUuid + 1) → ∀ t : List Message,
      (∀ x ∈ t, ¬(x.swapId = swap_id ∧
        x.messageId = mkUuid (db.nextUuid + 1))) →
      ∀ m1v : Message, m1v.messageId = mkUuid db.nextUuid →
      putMessage (t ++ [m1v]) mm2 = t ++ [m1v] ++ [mm2] := by
    intro mm2 hsw hid t ht m1v hm1
    apply putMessage_of_fresh
    intro x hx
    rcases List.mem_append.mp hx with hx | hx
    · rw [hsw, hid]; exact ht x hx
    · rw [List.mem_singleton.mp hx]
      rw [hsw, hid, hm1]
      intro hc
      have := mkUuid_injective hc.2
      omega
  rw [hput2 _ rfl rfl db.messages
    (fun x hx => (hfresh x hx).2) _ rfl]
  simp [List.append_assoc]

/-- Claim C5: an update whose new status equals the previous status
(including updates that change only the message or the meetup details)
emits no system message: the messages table is untouched, and the
unread-message count of every user (in particular of both participants)
is unchanged. -/
theorem same_status_update_emits_nothing
    (db : Db) (swap_id user_id : String) (data : SwapRepository.UpdateData)
    (sw : Swap)
    (hget : SwapRepository.get_swap db swap_id = some sw)
    (hpart : sw.requesterId = user_id ∨ sw.ownerId = user_id)
    (hsame : data.status = none ∨ data.status = some sw.status) :
    ((SwapRepository.update_swap_status db swap_id data user_id).2).messages
      = db.messages ∧
    ∀ u : String,
      MessageRepository.count_unread_messages
        (SwapRepository.update_swap_status db swap_id data user_id).2 u =
      MessageRepository.count_unread_messages db u := by
  have h := update_swap_status_no_status_change db swap_id user_id data sw
    hget hpart hsame
  refine ⟨h, fun u => ?_⟩
  unfold MessageRepository.count_unread_messages
  rw [h]

/-- Witness for claim C5: re-submitting status `pending` (with a new
message text) on the pending swap `s1` leaves the message store and all
unread counts unchanged. -/
theorem same_status_update_emits_nothing_witness :
    ((SwapRepository.update_swap_status baseDb "s1"
        { status := some "pending", message := some "hi"
          meetupDetails := none } "u1").2).messages = baseDb.messages ∧
    ∀ u : String,
      MessageRepository.count_unread_messages
        (SwapRepository.update_swap_status baseDb "s1"
          { status := some "pending", message := some "hi"
            meetupDetails := none } "u1").2 u =
      MessageRepository.count_unread_messages baseDb u :=
  same_status_update_emits_nothing baseDb "s1" "u1"
    { status := some "pending", message := some "hi", meetupDetails := none }
    pendingSwap rfl (Or.inl rfl) (Or.inr rfl)

theorem update_swap_status_non_notifying
    (db : Db) (swap_id user_id new_status : String)
    (msg0 : Option String) (md0 : Option (List (String × String)))
    (sw : Swap)
    (hget : SwapRepository.get_swap db swap_id = some sw)
    (hpart : sw.requesterId = user_id ∨ sw.ownerId = user_id)
    (hchange : sw.status ≠ new_status)
    (hev : SwapRepository.statusEventContent new_status = none) :
    ((SwapRepository.update_swap_status db swap_id
        { status := some new_status, message := msg0, meetupDetails := md0 }
        user_id).2).messages = db.messages := by
  have hsc : ((some new_status).isSome : Prop) ∧ sw.status ≠ new_status :=
    ⟨rfl, hchange⟩
  simp only [SwapRepository.update_swap_status, hget, Db.utcnow,
    Option.getD_some]
  rw [if_neg (participant_cond_false hpart), if_pos hsc]
  simp only [SwapRepository.create_status_change_messages, hev]

theorem statusEventContent_fst (s : String) :
    (SwapRepository.statusEventContent s).map Prod.fst = specEventFor s := by
  simp only [SwapRepository.statusEventContent, specEventFor, beq_iff_eq]
  split_ifs <;> rfl

theorem find?_swaps_update (l : List Swap) (swap_id : String)
    (sw updated : Swap)
    (hfind : l.find? (fun s => s.swapId == swap_id) = some sw)
    (hid : updated.swapId = swap_id) :
    ((l.map fun s => if s.swapId == swap_id then updated else s).find?
      fun s => s.swapId == swap_id) = some updated := by
  rw [List.find?_map]
  have hpf : ((fun s : Swap => s.swapId == swap_id) ∘ fun s : Swap =>
      if s.swapId == swap_id then updated else s) =
      fun s : Swap => s.swapId == swap_id := by
    funext s
    by_cases hc : s.swapId = swap_id
    · simp [Function.comp, hc, hid]
    · simp [Function.comp, hc]
  have hswkey := List.find?_some hfind
  rw [hpf, hfind]
  simp [hswkey]
  intro h
  exact absurd (by simpa using hswkey) h

/-- Claim C1: for every swap transition in which the status actually
changes and the new status carries a notification event (accepted,
rejected, completed, cancelled), the operation appends, after persisting
the updated swap, exactly two system messages — one to the requester
and one to the owner — both with the event type matching the new status,
both initially unread, and both carrying metadata recording the previous
status, the new status, the acting user and the transition timestamp; a
change into any other target state (such as back to pending) appends no
message. -/
theorem status_change_notifications
    (db : Db) (swap_id user_id new_status : String)
    (msg0 : Option String) (md0 : Option (List (String × String)))
    (sw : Swap)
    (hget : SwapRepository.get_swap db swap_id = some sw)
    (hpart : sw.requesterId = user_id ∨ sw.ownerId = user_id)
    (hchange : sw.status ≠ new_status)
    (hfresh : ∀ m ∈ db.messages,
      ¬(m.swapId = swap_id ∧ m.messageId = mkUuid db.nextUuid) ∧
      ¬(m.swapId = swap_id ∧ m.messageId = mkUuid (db.nextUuid + 1))) :
    (∀ ev : SystemMessageEvent, specEventFor new_status = some ev →
      ∃ m1 m2 : Message,
        ((SwapRepository.update_swap_status db swap_id
            { status := some new_status, message := msg0
              meetupDetails := md0 } user_id).2).messages =
          db.messages ++ [m1, m2] ∧
        m1.recipientId = sw.requesterId ∧ m2.recipientId = sw.ownerId ∧
        m1.eventType = some ev ∧ m2.eventType = some ev ∧
        m1.isRead = false ∧ m2.isRead = false ∧
        m1.messageType = "system" ∧ m2.messageType = "system" ∧
        m1.senderId = MessageRepository.SYSTEM_SENDER_ID ∧
        m2.senderId = MessageRepository.SYSTEM_SENDER_ID ∧
        m1.metadata = some { previous_status := sw.status
                             new_status := some new_status
                             actor_id := user_id
                             timestamp := mkTime db.clock } ∧
        m2.metadata = m1.metadata ∧
        (∃ sw2 : Swap,
          SwapRepository.get_swap
            (SwapRepository.update_swap_status db swap_id
              { status := some new_status, message := msg0
                meetupDetails := md0 } user_id).2 swap_id = some sw2 ∧
          sw2.status = new_status)) ∧
    (specEventFor new_status = none →
      ((SwapRepository.update_swap_status db swap_id
          { status := some new_status, message := msg0
            meetupDetails := md0 } user_id).2).messages = db.messages) := by
  constructor
  · intro ev hev
    obtain ⟨⟨ev0, c⟩, hec⟩ :
        ∃ p, SwapRepository.statusEventContent new_status = some p := by
      cases hsec : SwapRepository.statusEventContent new_status with
      | none =>
        have := statusEventContent_fst new_status
        rw [hsec, hev] at this
        simp at this
      | some p => exact ⟨p, rfl⟩
    have hev0 : ev0 = ev := by
      have := statusEventContent_fst new_status
      rw [hec, hev] at this
      simpa using this
    subst hev0
    have H := update_swap_status_notifying_spec db swap_id user_id
      new_status msg0 md0 sw ev0 c hget hpart hchange hec hfresh
    rw [H]
    refine ⟨_, _, rfl, rfl, rfl, rfl, rfl, rfl, rfl, rfl, rfl, rfl, rfl,
      rfl, rfl, ?_⟩
    have hswkey := List.find?_some
      (show List.find? (fun s => s.swapId == swap_id) db.swaps = some sw
        from hget)
    exact ⟨{ sw with
        updatedAt := mkTime db.clock
        status := new_status
        completedAt :=
          if (some new_status == some "completed" : Bool) then
            some (mkTime db.clock)
          else sw.completedAt
        message := msg0.getD sw.message
        meetupDetails := md0.getD sw.meetupDetails },
      find?_swaps_update db.swaps swap_id sw _ hget
        (by simpa using hswkey), rfl⟩
  · intro hev
    have hec : SwapRepository.statusEventContent new_status = none := by
      cases hsec : SwapRepository.statusEventContent new_status with
      | none => rfl
      | some p =>
        have := statusEventContent_fst new_status
        rw [hsec, hev] at this
        simp at this
    exact update_swap_status_non_notifying db swap_id user_id new_status
      msg0 md0 sw hget hpart hchange hec

/-- Witness for claim C1: accepting the pending swap `s1` (actor `u2`)
on the concrete store emits exactly the two unread system messages with
event `SWAP_ACCEPTED` and the transition metadata, after persisting the
accepted swap. -/
theorem status_change_notifications_witness :
    ∃ m1 m2 : Message,
      ((SwapRepository.update_swap_status baseDb "s1"
          { status := some "accepted", message := none
            meetupDetails := none } "u2").2).messages =
        baseDb.messages ++ [m1, m2] ∧
      m1.recipientId = pendingSwap.requesterId ∧
      m2.recipientId = pendingSwap.ownerId ∧
      m1.eventType = some .SWAP_ACCEPTED ∧
      m2.eventType = some .SWAP_ACCEPTED ∧
      m1.isRead = false ∧ m2.isRead = false ∧
      m1.messageType = "system" ∧ m2.messageType = "system" ∧
      m1.senderId = MessageRepository.SYSTEM_SENDER_ID ∧
      m2.senderId = MessageRepository.SYSTEM_SENDER_ID ∧
      m1.metadata = some { previous_status := pendingSwap.status
                           new_status := some "accepted"
                           actor_id := "u2"
                           timestamp := mkTime baseDb.clock } ∧
      m2.metadata = m1.metadata ∧
      (∃ sw2 : Swap,
        SwapRepository.get_swap
          (SwapRepository.update_swap_status baseDb "s1"
            { status := some "accepted", message := none
              meetupDetails := none } "u2").2 "s1" = some sw2 ∧
        sw2.status = "accepted") :=
  (status_change_notifications baseDb "s1" "u2" "accepted" none none
    pendingSwap rfl (Or.inr rfl) (by decide) (by decide)).1
    .SWAP_ACCEPTED rfl

theorem get_messages_reference_unread_count (db : Db) (swap_id : String) :
    (MessageRepository.get_messages_reference db swap_id).unread_count =
    ((db.messages.filter fun m => m.swapId == swap_id).filter
      fun m => !m.isRead).length := by
  have hperm := List.perm_insertionSort
    (fun a b : Message => strLe a.messageId b.messageId = true)
    (db.messages.filter fun m => m.swapId == swap_id)
  unfold MessageRepository.get_messages_reference
  cases h : MessageRepository.get_messages_for_swap db swap_id with
  | nil =>
    rw [MessageRepository.get_messages_for_swap] at h
    rw [h] at hperm
    have hnil := (hperm.symm).eq_nil
    simp [hnil]
  | cons m ms =>
    rw [MessageRepository.get_messages_for_swap] at h
    rw [h] at hperm
    simpa using List.Perm.length_eq
      (List.Perm.filter (fun x => !x.isRead) hperm)

/-- Claim C10: the unread count of the messages reference summary counts
every stored message of the swap whose read flag is false, regardless of
which participant is the recipient; consequently a single notifying
status transition, which writes one unread system-message copy per
participant, increases the unread count of the summary by exactly
two. -/
theorem reference_unread_count_spec :
    (∀ (db : Db) (swap_id : String),
      (MessageRepository.get_messages_reference db swap_id).unread_count =
      ((db.messages.filter fun m => m.swapId == swap_id).filter
        fun m => !m.isRead).length) ∧
    (∀ (db : Db) (swap_id user_id new_status : String)
      (msg0 : Option String) (md0 : Option (List (String × String)))
      (sw : Swap) (ev : SystemMessageEvent),
      SwapRepository.get_swap db swap_id = some sw →
      (sw.requesterId = user_id ∨ sw.ownerId = user_id) →
      sw.status ≠ new_status →
      specEventFor new_status = some ev →
      (∀ m ∈ db.messages,
        ¬(m.swapId = swap_id ∧ m.messageId = mkUuid db.nextUuid) ∧
        ¬(m.swapId = swap_id ∧ m.messageId = mkUuid (db.nextUuid + 1))) →
      (MessageRepository.get_messages_reference
        (SwapRepository.update_swap_status db swap_id
          { status := some new_status, message := msg0
            meetupDetails := md0 } user_id).2 swap_id).unread_count =
      (MessageRepository.get_messages_reference db swap_id).unread_count
        + 2) := by
  refine ⟨get_messages_reference_unread_count, ?_⟩
  intro db swap_id user_id new_status msg0 md0 sw ev hget hpart hchange hev
    hfresh
  obtain ⟨⟨ev0, c⟩, hec⟩ :
      ∃ p, SwapRepository.statusEventContent new_status = some p := by
    cases hsec : SwapRepository.statusEventContent new_status with
    | none =>
      have := statusEventContent_fst new_status
      rw [hsec, hev] at this
      simp at this
    | some p => exact ⟨p, rfl⟩
  have H := update_swap_status_notifying_spec db swap_id user_id
    new_status msg0 md0 sw ev0 c hget hpart hchange hec hfresh
  rw [H]
  rw [get_messages_reference_unread_count, get_messages_reference_unread_count]
  simp [List.filter_append]

/-- Witness for claim C10: accepting the pending swap `s1` on the
concrete store raises the unread count of the reference summary of `s1`
by exactly two. -/
theorem reference_unread_count_spec_witness :
    (MessageRepository.get_messages_reference
      (SwapRepository.update_swap_status baseDb "s1"
        { status := some "accepted", message := none, meetupDetails := none }
        "u2").2 "s1").unread_count =
    (MessageRepository.get_messages_reference baseDb "s1").unread_count
      + 2 :=
  reference_unread_count_spec.2 baseDb "s1" "u2" "accepted" none none
    pendingSwap .SWAP_ACCEPTED rfl (Or.inr rfl) (by decide) rfl (by decide)

/-- Counterexample to claim C4 as stated: for user `u1` with two swaps
of which one is completed, the history endpoint reports a success rate
of `50` (a percentage), not the claimed `completed / total = 1 / 2`. -/
theorem history_success_rate_not_completed_over_total :
    ((SwapsRouter.get_user_swap_history historyDb "u1").toOption.map
      fun r => r.statistics.success_rate) = some 50 ∧
    ((50 : ℚ) ≠ 1 / 2) := by
  constructor
  · have huser : UserRepository.get_user historyDb "u1" = some userU1 := by
      decide
    have hswaps : SwapRepository.get_swaps_by_user historyDb "u1" =
        [completedSwap, pendingSwap] := by decide
    have hc : List.filter (fun s : Swap => s.status == "completed")
        [completedSwap, pendingSwap] = [completedSwap] := by decide
    simp only [SwapsRouter.get_user_swap_history, huser, hswaps, hc,
      Except.toOption]
    norm_num [pythonRound1, roundHalfEven]
  · norm_num

theorem nodup_keys_inj (l : List Swap) (h : (l.map Swap.swapId).Nodup) :
    ∀ a ∈ l, ∀ b ∈ l, a.swapId = b.swapId → a = b := by
  induction l with
  | nil => intro a ha; simp at ha
  | cons c rest ih =>
    rw [List.map_cons, List.nodup_cons] at h
    intro a ha b hb heq
    rcases List.mem_cons.mp ha with rfl | ha2
    · rcases List.mem_cons.mp hb with rfl | hb2
      · rfl
      · exact absurd (by rw [heq]; exact List.mem_map_of_mem _ hb2) h.1
    · rcases List.mem_cons.mp hb with rfl | hb2
      · exact absurd (by rw [← heq]; exact List.mem_map_of_mem _ ha2) h.1
      · exact ih h.2 a ha2 b hb2 heq

theorem upsert_eq (acc : List Swap) (s : Swap)
    (hco : ∀ a ∈ acc, a.swapId = s.swapId → a = s) :
    SwapRepository.upsertBySwapId acc s =
    if s.swapId ∈ acc.map Swap.swapId then acc else acc ++ [s] := by
  induction acc with
  | nil => simp [SwapRepository.upsertBySwapId]
  | cons c rest ih =>
    by_cases h : c.swapId = s.swapId
    · have hcs : c = s := hco c (by simp) h
      subst hcs
      simp [SwapRepository.upsertBySwapId]
    · have hrest := ih fun a ha => hco a (List.mem_cons_of_mem c ha)
      simp only [SwapRepository.upsertBySwapId]
      rw [if_neg (by simpa using h)]
      rw [hrest]
      by_cases hmem : s.swapId ∈ rest.map Swap.swapId
      · rw [if_pos hmem, if_pos (by simp [hmem])]
      · have hnc : s.swapId ∉ (c :: rest).map Swap.swapId := by
          simp only [List.map_cons, List.mem_cons]
          rintro (hh | hh)
          · exact h hh.symm
          · exact hmem hh
        rw [if_neg hmem, if_neg hnc]
        simp

theorem foldl_upsert_spec (l : List Swap) : ∀ acc : List Swap,
    (acc.map Swap.swapId).Nodup →
    (∀ a, (a ∈ acc ∨ a ∈ l) → ∀ b, (b ∈ acc ∨ b ∈ l) →
      a.swapId = b.swapId → a = b) →
    ((l.foldl SwapRepository.upsertBySwapId acc).map Swap.swapId).Nodup ∧
    (∀ x, x ∈ l.foldl SwapRepository.upsertBySwapId acc ↔
      x ∈ acc ∨ x ∈ l) := by
  induction l with
  | nil => intro acc hacc _; simpa using hacc
  | cons s rest ih =>
    intro acc hacc hco
    have hcoacc : ∀ a ∈ acc, a.swapId = s.swapId → a = s := fun a ha =>
      hco a (Or.inl ha) s (Or.inr (List.mem_cons_self s rest))
    rw [List.foldl_cons, upsert_eq acc s hcoacc]
    by_cases hmem : s.swapId ∈ acc.map Swap.swapId
    · rw [if_pos hmem]
      obtain ⟨a, ha, hid⟩ := List.mem_map.mp hmem
      have hs_in : s ∈ acc := hcoacc a ha hid ▸ ha
      have ihres := ih acc hacc fun a ha b hb heq =>
        hco a (ha.imp id (List.mem_cons_of_mem s))
          b (hb.imp id (List.mem_cons_of_mem s)) heq
      refine ⟨ihres.1, fun x => ?_⟩
      rw [ihres.2 x]
      constructor
      · rintro (hx | hx)
        · exact Or.inl hx
        · exact Or.inr (List.mem_cons_of_mem s hx)
      · rintro (hx | hx)
        · exact Or.inl hx
        · rcases List.mem_cons.mp hx with rfl | hx2
          · exact Or.inl hs_in
          · exact Or.inr hx2
    · rw [if_neg hmem]
      have hacc2 : ((acc ++ [s]).map Swap.swapId).Nodup := by
        rw [List.map_append]
        simp [List.Nodup.append, hacc, hmem, List.nodup_append]
      have ihres := ih (acc ++ [s]) hacc2 (by
        intro a ha b hb heq
        refine hco a ?_ b ?_ heq
        · rcases ha with ha | ha
          · rcases List.mem_append.mp ha with ha2 | ha2
            · exact Or.inl ha2
            · exact Or.inr (List.mem_singleton.mp ha2 ▸
                List.mem_cons_self s rest)
          · exact Or.inr (List.mem_cons_of_mem s ha)
        · rcases hb with hb | hb
          · rcases List.mem_append.mp hb with hb2 | hb2
            · exact Or.inl hb2
            · exact Or.inr (List.mem_singleton.mp hb2 ▸
                List.mem_cons_self s rest)
          · exact Or.inr (List.mem_cons_of_mem s hb))
      refine ⟨ihres.1, fun x => ?_⟩
      rw [ihres.2 x]
      simp only [List.mem_append, List.mem_singleton, List.mem_cons]
      tauto

theorem get_swaps_by_user_perm (db : Db) (user_id : String)
    (hnodup : (db.swaps.map Swap.swapId).Nodup) :
    (SwapRepository.get_swaps_by_user db user_id).Perm
      (db.swaps.filter fun s =>
        s.requesterId == user_id || s.ownerId == user_id) := by
  have hinj := nodup_keys_inj db.swaps hnodup
  have hco : ∀ a, (a ∈ ([] : List Swap) ∨
      a ∈ (db.swaps.filter fun s => s.requesterId == user_id) ++
        (db.swaps.filter fun s => s.ownerId == user_id)) → ∀ b,
      (b ∈ ([] : List Swap) ∨
      b ∈ (db.swaps.filter fun s => s.requesterId == user_id) ++
        (db.swaps.filter fun s => s.ownerId == user_id)) →
      a.swapId = b.swapId → a = b := by
    intro a ha b hb heq
    have hamem : a ∈ db.swaps := by
      rcases ha with ha | ha
      · simp at ha
      · rcases List.mem_append.mp ha with h2 | h2 <;>
          exact (List.mem_filter.mp h2).1
    have hbmem : b ∈ db.swaps := by
      rcases hb with hb | hb
      · simp at hb
      · rcases List.mem_append.mp hb with h2 | h2 <;>
          exact (List.mem_filter.mp h2).1
    exact hinj a hamem b hbmem heq
  have H := foldl_upsert_spec
    ((db.swaps.filter fun s => s.requesterId == user_id) ++
      (db.swaps.filter fun s => s.ownerId == user_id)) [] (by simp) hco
  have hDnodup : (((db.swaps.filter fun s => s.requesterId == user_id) ++
      (db.swaps.filter fun s => s.ownerId == user_id)).foldl
        SwapRepository.upsertBySwapId []).Nodup := H.1.of_map
  have hTnodup : (db.swaps.filter fun s =>
      s.requesterId == user_id || s.ownerId == user_id).Nodup :=
    (hnodup.of_map).filter _
  have hmemiff : ∀ x, x ∈ ((db.swaps.filter fun s =>
      s.requesterId == user_id) ++
        (db.swaps.filter fun s => s.ownerId == user_id)).foldl
          SwapRepository.upsertBySwapId [] ↔
      x ∈ db.swaps.filter fun s =>
        s.requesterId == user_id || s.ownerId == user_id := by
    intro x
    rw [H.2 x]
    simp only [List.mem_append, List.mem_filter, List.not_mem_nil,
      false_or, Bool.or_eq_true]
    tauto
  have hperm2 := (List.perm_ext_iff_of_nodup hDnodup hTnodup).mpr hmemiff
  unfold SwapRepository.get_swaps_by_user
  exact (List.perm_insertionSort _ _).trans hperm2

theorem pythonRound1_zero : pythonRound1 0 = 0 := by
  norm_num [pythonRound1, roundHalfEven]

/-- Claim C4 (amended): when the user exists and swap ids are unique,
the history endpoint reports `total_swaps` equal to the number of swaps
in which the user participates, `completed_swaps` equal to the number of
those with status completed, and a success rate equal to
`completed / total * 100` rounded (half to even) to one decimal place,
with `0` when the total is `0` — a percentage, not the bare ratio
`completed / total`. -/
theorem history_statistics_spec (db : Db) (user_id : String) (u : User)
    (hu : UserRepository.get_user db user_id = some u)
    (hnodup : (db.swaps.map Swap.swapId).Nodup) :
    ∃ r : SwapsRouter.HistoryResponse,
      SwapsRouter.get_user_swap_history db user_id = .ok r ∧
      r.statistics.total_swaps = (db.swaps.filter fun s =>
        s.requesterId == user_id || s.ownerId == user_id).length ∧
      r.statistics.completed_swaps = ((db.swaps.filter fun s =>
        s.requesterId == user_id || s.ownerId == user_id).filter
          fun s => s.status == "completed").length ∧
      (r.statistics.total_swaps ≠ 0 →
        r.statistics.success_rate =
          pythonRound1 ((r.statistics.completed_swaps : ℚ) /
            (r.statistics.total_swaps : ℚ) * 100)) ∧
      (r.statistics.total_swaps = 0 → r.statistics.success_rate = 0) := by
  have hperm := get_swaps_by_user_perm db user_id hnodup
  unfold SwapsRouter.get_user_swap_history
  rw [hu]
  refine ⟨_, rfl, hperm.length_eq, (hperm.filter _).length_eq, ?_, ?_⟩
  · intro ht
    dsimp only at ht ⊢
    rw [if_pos (Nat.pos_of_ne_zero ht)]
  · intro ht
    dsimp only at ht ⊢
    rw [ht]
    simp [pythonRound1_zero]

/-- Witness for claim C4 (amended) on the concrete store: user `u1` has
two swaps, one completed, and the endpoint reports the percentage rate
`50`. -/
theorem history_statistics_spec_witness :
    (∃ r : SwapsRouter.HistoryResponse,
      SwapsRouter.get_user_swap_history historyDb "u1" = .ok r ∧
      r.statistics.total_swaps = (historyDb.swaps.filter fun s =>
        s.requesterId == "u1" || s.ownerId == "u1").length ∧
      r.statistics.completed_swaps = ((historyDb.swaps.filter fun s =>
        s.requesterId == "u1" || s.ownerId == "u1").filter
          fun s => s.status == "completed").length ∧
      (r.statistics.total_swaps ≠ 0 →
        r.statistics.success_rate =
          pythonRound1 ((r.statistics.completed_swaps : ℚ) /
            (r.statistics.total_swaps : ℚ) * 100)) ∧
      (r.statistics.total_swaps = 0 → r.statistics.success_rate = 0)) :=
  history_statistics_spec historyDb "u1" userU1 (by decide) (by decide)

/-- Claim C9: the Haversine distance (great circle, Earth radius 3956
miles) satisfies distance(A, A) = 0 and distance(A, B) = distance(B, A),
and the location-search filter includes a listing whose distance from
the search center is exactly the search radius (the comparison is
inclusive). -/
theorem haversine_distance_properties :
    (∀ lat lng : ℝ, GeocodingService.calculate_distance lat lng lat lng
      = 0) ∧
    (∀ lat1 lng1 lat2 lng2 : ℝ,
      GeocodingService.calculate_distance lat1 lng1 lat2 lng2 =
      GeocodingService.calculate_distance lat2 lng2 lat1 lng1) ∧
    (∀ (l : GeocodingService.GeoListing) (clat clng llat llng : ℝ),
      (GeocodingService.filter_listings_by_distance
        [{ l with location := some (llat, llng) }] clat clng
        (GeocodingService.calculate_distance clat clng llat llng)).map
          GeocodingService.GeoListing.location = [some (llat, llng)]) := by
  refine ⟨?_, ?_, ?_⟩
  · intro lat lng
    simp [GeocodingService.calculate_distance, sub_self]
  · intro lat1 lng1 lat2 lng2
    have key : ∀ u v : ℝ,
        Real.sin ((u - v) / 2) ^ 2 = Real.sin ((v - u) / 2) ^ 2 := by
      intro u v
      rw [show (u - v) / 2 = -((v - u) / 2) by ring, Real.sin_neg]
      ring
    unfold GeocodingService.calculate_distance
    rw [key (GeocodingService.radians lat2) (GeocodingService.radians lat1),
      key (GeocodingService.radians lng2) (GeocodingService.radians lng1),
      mul_comm (Real.cos (GeocodingService.radians lat1))
        (Real.cos (GeocodingService.radians lat2))]
  · intro l clat clng llat llng
    simp only [GeocodingService.filter_listings_by_distance,
      List.filterMap_cons, List.filterMap_nil]
    rw [if_pos (le_refl _)]
    simp [List.insertionSort, List.orderedInsert]
